import Mathlib

/-!
Verification of the generated-code execution engine of NEX_SIGHT
(source file secure_executor_1758734351640.py, function
run_generated_code).

The Python function is shallowly embedded as a Lean function.  Since the
engine runs an arbitrary code string through the host primitive
exec(code, globals, locals), a code string is modelled by its denotation:
a function from the two namespaces it is given (globals and locals) and
the process-wide pending-figure registry to the effects exec can have,
namely a mutated local namespace, text printed to the current standard
output, an updated figure registry, and optionally a raised exception
(carrying its string representation).  Mutations performed before the
exception was raised are retained in the returned namespace, exactly as
with in-place dict mutation in Python.

The ambient process state threaded through a call consists of the pyplot
pending-figure registry (a list of figure numbers, the current figure
being the most recently created one, i.e. the last), the files written so
far (plt.savefig writes the current figure to a path; it raises when the
target directory is missing, which the flag dataDirExists models), and
the text that reached the real terminal.  The engine-local output buffer
(an io.StringIO) and the redirect scope of contextlib.redirect_stdout are
modelled explicitly in the call outcome so that the release of the
capture scope on each exit path can be stated.
-/

namespace NexSight

/-- A Python value stored in a namespace: the model needs strings,
numbers, a tabular dataset carrying its column names, and a unit value. -/
inductive Value where
  | vStr : String → Value
  | vInt : Int → Value
  | vDataFrame : List String → Value
  | vNone : Value
deriving DecidableEq, Repr

/-- A Python dict used as a namespace: an association list. -/
abbrev Ctx := List (String × Value)

/-- Dict lookup, none when the key is absent. -/
def ctxLookup : Ctx → String → Option Value
  | [], _ => none
  | (k, v) :: rest, key => if k = key then some v else ctxLookup rest key

/-- The membership test written as a key-in-dict check in Python. -/
def ctxHasKey (c : Ctx) (k : String) : Bool := (ctxLookup c k).isSome

/-- Dict get with a default value. -/
def ctxGetD (c : Ctx) (k : String) (d : Value) : Value :=
  (ctxLookup c k).getD d

/-- Dict assignment: replace the first binding of the key or append it. -/
def ctxSet : Ctx → String → Value → Ctx
  | [], k, v => [(k, v)]
  | (k2, v2) :: rest, k, v =>
      if k2 = k then (k, v) :: rest else (k2, v2) :: ctxSet rest k v

/-- The attribute access df.columns.tolist(): defined on DataFrames, an
AttributeError on any other value. -/
def columnsToList : Value → Option (List String)
  | Value.vDataFrame cols => some cols
  | _ => none

/-- The effects of one exec call: the local namespace after the call
(mutated in place, so partial mutations survive a raised exception), the
text printed to the current standard output, the pending figure registry
after the call, and the string form of the raised exception when one was
raised. -/
structure ExecResult where
  ctx : Ctx
  printed : String
  figs : List Nat
  exn : Option String
deriving DecidableEq, Repr

/-- Denotation of a code string: what exec does with it, given the global
namespace, the local namespace, and the pending-figure registry. -/
abbrev Code := Ctx → Ctx → List Nat → ExecResult

/-- Process-wide state around one call: the pyplot pending-figure
registry (the last element is the current figure), the files on disk
(path paired with the number of the figure saved there), the text that
reached the real terminal, and whether the directory of the artifact path
exists (when it does not, plt.savefig raises). -/
structure EngineState where
  figs : List Nat
  files : List (String × Nat)
  realStdout : String
  dataDirExists : Bool
deriving DecidableEq, Repr

/-- Write a file: overwrite the binding for the path or append it. -/
def setFile : List (String × Nat) → String → Nat → List (String × Nat)
  | [], p, f => [(p, f)]
  | (q, g) :: rest, p, f =>
      if q = p then (p, f) :: rest else (q, g) :: setFile rest p f

/-- Everything observable when run_generated_code returns: the returned
pair (an Except.error value when an exception escaped the call), the
context object of the caller after the call, the process state, whether
the stdout redirect scope is still active, and the content of the
internal output buffer of the engine. -/
structure RunOutcome where
  ret : Except String (Value × Value)
  ctx : Ctx
  state : EngineState
  capturing : Bool
  buffer : String

def noDataFrameMsg : String := "No DataFrame provided"

def missingDfMsg : String := "Missing df"

def execErrorMsg : String := "Error occurred during code execution."

def noSummaryMsg : String := "No summary provided."

def plotPath : String := "data/plot.png"

/-- String form of the AttributeError raised by the column listing when
df is not a DataFrame. -/
def attributeErrorMsg : String := "object has no attribute columns"

/-- String form of the FileNotFoundError raised by plt.savefig when the
data directory is missing. -/
def saveErrorMsg : String := "No such file or directory: data/plot.png"

/-- The diagnostic line the pre-execution column listing writes to the
real terminal. -/
def columnsNotice (cols : List String) : String :=
  "[🔍] Columns in df before exec: [" ++ String.intercalate ", " cols
    ++ "]\n"

/-- The diagnostic line the exception handler writes to the real
terminal. -/
def errorNotice (e : String) : String :=
  "❌ Code execution error: " ++ e ++ "\n"

/-- Shallow embedding of run_generated_code(code, local_vars) from
secure_executor_1758734351640.py, threaded through an explicit process
state st.  Line by line: create the empty output buffer; return the fixed
pair when df is absent; print the column listing to the real terminal
(this happens before the try block, so a non-DataFrame df raises an
uncaught AttributeError here); run exec with an empty global namespace
and local_vars as the local namespace, under redirect_stdout into the
buffer (the redirect scope ends when exec returns or raises); then, still
inside the try block, when the figure registry is non-empty save the
current (last) figure to the fixed path and close that figure; read
result and summary from the mutated locals with their defaults; any
exception inside the try block is caught, logged to the real terminal,
and turned into the fixed error pair. -/
def run_generated_code (code : Code) (local_vars : Ctx)
    (st : EngineState) : RunOutcome :=
  let output_buffer : String := ""
  if ctxHasKey local_vars "df" = false then
    { ret := Except.ok (Value.vStr noDataFrameMsg, Value.vStr missingDfMsg),
      ctx := local_vars, state := st, capturing := false,
      buffer := output_buffer }
  else
    match columnsToList (ctxGetD local_vars "df" Value.vNone) with
    | none =>
        { ret := Except.error attributeErrorMsg,
          ctx := local_vars, state := st, capturing := false,
          buffer := output_buffer }
    | some cols =>
        let st1 : EngineState :=
          { st with realStdout := st.realStdout ++ columnsNotice cols }
        let er := code [] local_vars st1.figs
        let buf := output_buffer ++ er.printed
        let st2 : EngineState := { st1 with figs := er.figs }
        match er.exn with
        | some e =>
            { ret := Except.ok (Value.vStr execErrorMsg, Value.vStr e),
              ctx := er.ctx,
              state :=
                { st2 with realStdout := st2.realStdout ++ errorNotice e },
              capturing := false, buffer := buf }
        | none =>
            match st2.figs.getLast? with
            | none =>
                { ret := Except.ok
                    (ctxGetD er.ctx "result" (Value.vStr buf),
                     ctxGetD er.ctx "summary" (Value.vStr noSummaryMsg)),
                  ctx := er.ctx, state := st2, capturing := false,
                  buffer := buf }
            | some cur =>
                if st2.dataDirExists then
                  { ret := Except.ok
                      (ctxGetD er.ctx "result" (Value.vStr buf),
                       ctxGetD er.ctx "summary" (Value.vStr noSummaryMsg)),
                    ctx := er.ctx,
                    state :=
                      { st2 with files := setFile st2.files plotPath cur,
                                 figs := st2.figs.dropLast },
                    capturing := false, buffer := buf }
                else
                  { ret := Except.ok
                      (Value.vStr execErrorMsg, Value.vStr saveErrorMsg),
                    ctx := er.ctx,
                    state :=
                      { st2 with realStdout :=
                          st2.realStdout ++ errorNotice saveErrorMsg },
                    capturing := false, buffer := buf }

/-- Writing to standard output after a call: when the redirect scope is
still active the text is diverted into the buffer, otherwise it reaches
the real terminal. -/
def stdoutWrite (o : RunOutcome) (s : String) : RunOutcome :=
  if o.capturing then { o with buffer := o.buffer ++ s }
  else
    { o with state :=
        { o.state with realStdout := o.state.realStdout ++ s } }

/-- Appending to the empty string buffer yields the appended text. -/
theorem str_empty_append (s : String) : "" ++ s = s := rfl

/-- A fresh process state: no pending figures, no files, empty terminal,
and the data directory present. -/
def st0 : EngineState :=
  { figs := [], files := [], realStdout := "", dataDirExists := true }

/-- A process state in which the data directory is missing, so the
artifact-save step raises. -/
def stNoDir : EngineState :=
  { figs := [], files := [], realStdout := "", dataDirExists := false }

/-- A context whose df binding is a DataFrame with columns a and b. -/
def ctxDf : Ctx := [("df", Value.vDataFrame ["a", "b"])]

/-- A context whose df binding is not a DataFrame. -/
def ctxBadDf : Ctx := [("df", Value.vInt 0)]

/-- A context without a df binding. -/
def ctxNoDf : Ctx := [("x", Value.vInt 1)]

/-- Denotation of a code string that does nothing. -/
def skipCode : Code := fun _ locs figs =>
  { ctx := locs, printed := "", figs := figs, exn := none }

/-- Denotation of a code string that only prints a line. -/
def printCode : Code := fun _ locs figs =>
  { ctx := locs, printed := "hello\n", figs := figs, exn := none }

/-- Denotation of a code string that raises an exception with text bad. -/
def raiseCode : Code := fun _ locs figs =>
  { ctx := locs, printed := "", figs := figs, exn := some "bad" }

/-- Denotation of a code string that assigns result and summary, prints a
line, and then raises an exception with text boom. -/
def assignThenRaiseCode : Code := fun _ locs figs =>
  { ctx := ctxSet (ctxSet locs "result" (Value.vInt 7)) "summary"
      (Value.vStr "partial"),
    printed := "before the crash\n", figs := figs, exn := some "boom" }

/-- Denotation of a code string that creates one new figure. -/
def oneFigCode : Code := fun _ locs figs =>
  { ctx := locs, printed := "", figs := figs ++ [figs.length + 1],
    exn := none }

/-- Denotation of a code string that creates two new figures. -/
def twoFigCode : Code := fun _ locs figs =>
  { ctx := locs, printed := "",
    figs := figs ++ [figs.length + 1, figs.length + 2], exn := none }

/-- Claim C1 (counterexample): the claim quantifies over every context
containing the key df, but when the df binding is not a DataFrame the
pre-execution column listing raises an AttributeError outside the try
block, and the call does not return a pair: the exception propagates. -/
theorem C1_counterexample :
    ctxHasKey ctxBadDf "df" = true
    ∧ (run_generated_code skipCode ctxBadDf st0).ret
        = Except.error attributeErrorMsg :=
  ⟨rfl, rfl⟩

/-- Claim C1 (amended): for every code string and every context whose df
binding is a DataFrame, the call returns normally with a pair, and
whenever the executed code raises an exception the returned pair is
exactly the fixed error message paired with the string form of the
exception. -/
theorem C1_theorem (code : Code) (ctx : Ctx) (st : EngineState)
    (cols : List String) (e : String)
    (hdf : ctxLookup ctx "df" = some (Value.vDataFrame cols)) :
    (∃ p, (run_generated_code code ctx st).ret = Except.ok p)
    ∧ ((code [] ctx st.figs).exn = some e →
        (run_generated_code code ctx st).ret
          = Except.ok (Value.vStr execErrorMsg, Value.vStr e)) := by
  constructor
  · cases hx : (code [] ctx st.figs).exn with
    | some e2 =>
        exact ⟨(Value.vStr execErrorMsg, Value.vStr e2),
          by simp [run_generated_code, ctxHasKey, ctxGetD, columnsToList,
            hdf, hx]⟩
    | none =>
        cases hl : ((code [] ctx st.figs).figs).getLast? with
        | none =>
            exact ⟨(ctxGetD (code [] ctx st.figs).ctx "result"
                (Value.vStr ((code [] ctx st.figs).printed)),
              ctxGetD (code [] ctx st.figs).ctx "summary"
                (Value.vStr noSummaryMsg)),
              by simp [run_generated_code, ctxHasKey, ctxGetD,
                columnsToList, hdf, hx, hl, str_empty_append]⟩
        | some cur =>
            cases hd : st.dataDirExists with
            | true =>
                exact ⟨(ctxGetD (code [] ctx st.figs).ctx "result"
                    (Value.vStr ((code [] ctx st.figs).printed)),
                  ctxGetD (code [] ctx st.figs).ctx "summary"
                    (Value.vStr noSummaryMsg)),
                  by simp [run_generated_code, ctxHasKey, ctxGetD,
                    columnsToList, hdf, hx, hl, hd, str_empty_append]⟩
            | false =>
                exact ⟨(Value.vStr execErrorMsg, Value.vStr saveErrorMsg),
                  by simp [run_generated_code, ctxHasKey, ctxGetD,
                    columnsToList, hdf, hx, hl, hd]⟩
  · intro hexn
    simp [run_generated_code, ctxHasKey, ctxGetD, columnsToList, hdf, hexn]

/-- Claim C1 witness at a concrete raising code and DataFrame context. -/
theorem C1_witness :
    ctxLookup ctxDf "df" = some (Value.vDataFrame ["a", "b"])
    ∧ ((∃ p, (run_generated_code raiseCode ctxDf st0).ret = Except.ok p)
       ∧ ((raiseCode [] ctxDf st0.figs).exn = some "bad" →
           (run_generated_code raiseCode ctxDf st0).ret
             = Except.ok (Value.vStr execErrorMsg, Value.vStr "bad"))) :=
  ⟨rfl, C1_theorem raiseCode ctxDf st0 ["a", "b"] "bad" rfl⟩

/-- Claim C2: for every context without a df key the call returns exactly
the fixed pair, writes no artifact file, and does not depend on the code
at all, so the code is not executed. -/
theorem C2_theorem (code : Code) (ctx : Ctx) (st : EngineState)
    (h : ctxHasKey ctx "df" = false) :
    (run_generated_code code ctx st).ret
        = Except.ok (Value.vStr noDataFrameMsg, Value.vStr missingDfMsg)
    ∧ (run_generated_code code ctx st).state.files = st.files
    ∧ ∀ code2 : Code,
        run_generated_code code ctx st = run_generated_code code2 ctx st := by
  refine ⟨by simp [run_generated_code, h], by simp [run_generated_code, h],
    fun code2 => ?_⟩
  simp [run_generated_code, h]

/-- Claim C2 witness at a concrete context without df. -/
theorem C2_witness :
    ctxHasKey ctxNoDf "df" = false
    ∧ ((run_generated_code printCode ctxNoDf st0).ret
          = Except.ok (Value.vStr noDataFrameMsg, Value.vStr missingDfMsg)
       ∧ (run_generated_code printCode ctxNoDf st0).state.files = st0.files
       ∧ ∀ code2 : Code,
           run_generated_code printCode ctxNoDf st0
             = run_generated_code code2 ctxNoDf st0) :=
  ⟨rfl, C2_theorem printCode ctxNoDf st0 rfl⟩

/-- Claim C3: when the code executes without raising (in a context whose
df binding is a DataFrame, with the artifact directory present so that
the save step cannot fail), the first returned element is the result
binding of the post-execution context, defaulting to the exact captured
output text, and the second is the summary binding, defaulting to the
fixed no-summary text. -/
theorem C3_theorem (code : Code) (ctx : Ctx) (st : EngineState)
    (cols : List String)
    (hdf : ctxLookup ctx "df" = some (Value.vDataFrame cols))
    (hok : (code [] ctx st.figs).exn = none)
    (hdir : st.dataDirExists = true) :
    (run_generated_code code ctx st).ret
      = Except.ok
          (ctxGetD (code [] ctx st.figs).ctx "result"
            (Value.vStr ((code [] ctx st.figs).printed)),
           ctxGetD (code [] ctx st.figs).ctx "summary"
            (Value.vStr noSummaryMsg)) := by
  cases hl : ((code [] ctx st.figs).figs).getLast? with
  | none =>
      simp [run_generated_code, ctxHasKey, ctxGetD, columnsToList, hdf,
        hok, hl, str_empty_append]
  | some cur =>
      simp [run_generated_code, ctxHasKey, ctxGetD, columnsToList, hdf,
        hok, hl, hdir, str_empty_append]

/-- Claim C3 witness at a concrete printing code. -/
theorem C3_witness :
    ctxLookup ctxDf "df" = some (Value.vDataFrame ["a", "b"])
    ∧ (printCode [] ctxDf st0.figs).exn = none
    ∧ st0.dataDirExists = true
    ∧ (run_generated_code printCode ctxDf st0).ret
        = Except.ok
            (ctxGetD (printCode [] ctxDf st0.figs).ctx "result"
              (Value.vStr ((printCode [] ctxDf st0.figs).printed)),
             ctxGetD (printCode [] ctxDf st0.figs).ctx "summary"
              (Value.vStr noSummaryMsg)) :=
  ⟨rfl, rfl, rfl, C3_theorem printCode ctxDf st0 ["a", "b"] rfl rfl rfl⟩

/-- Claim C4 (counterexample): the claim says a failure of the
artifact-save step propagates to the caller as an uncaught exception, but
the save step sits inside the try block: at a concrete figure-producing
code with the data directory missing, the call returns normally with the
execution-failure pair instead of raising. -/
theorem C4_counterexample :
    (run_generated_code oneFigCode ctxDf stNoDir).ret
      = Except.ok (Value.vStr execErrorMsg, Value.vStr saveErrorMsg) :=
  rfl

/-- Claim C4 (amended): a failure of the artifact-save step is caught by
the exception handler of the engine and converted into the
execution-failure pair; no artifact is written and nothing propagates to
the caller. -/
theorem C4_theorem (code : Code) (ctx : Ctx) (st : EngineState)
    (cols : List String) (cur : Nat)
    (hdf : ctxLookup ctx "df" = some (Value.vDataFrame cols))
    (hok : (code [] ctx st.figs).exn = none)
    (hfig : ((code [] ctx st.figs).figs).getLast? = some cur)
    (hdir : st.dataDirExists = false) :
    (run_generated_code code ctx st).ret
        = Except.ok (Value.vStr execErrorMsg, Value.vStr saveErrorMsg)
    ∧ (run_generated_code code ctx st).state.files = st.files := by
  constructor
  · simp [run_generated_code, ctxHasKey, ctxGetD, columnsToList, hdf,
      hok, hfig, hdir]
  · simp [run_generated_code, ctxHasKey, ctxGetD, columnsToList, hdf,
      hok, hfig, hdir]

/-- Claim C4 witness at a concrete figure-producing code with the data
directory missing. -/
theorem C4_witness :
    ctxLookup ctxDf "df" = some (Value.vDataFrame ["a", "b"])
    ∧ (oneFigCode [] ctxDf stNoDir.figs).exn = none
    ∧ ((oneFigCode [] ctxDf stNoDir.figs).figs).getLast? = some 1
    ∧ stNoDir.dataDirExists = false
    ∧ ((run_generated_code oneFigCode ctxDf stNoDir).ret
          = Except.ok (Value.vStr execErrorMsg, Value.vStr saveErrorMsg)
       ∧ (run_generated_code oneFigCode ctxDf stNoDir).state.files
          = stNoDir.files) :=
  ⟨rfl, rfl, rfl, rfl,
    C4_theorem oneFigCode ctxDf stNoDir ["a", "b"] 1 rfl rfl rfl rfl⟩

/-- Claim C5 (counterexample): the claim says the pending-figure registry
is cleared so that no figure remains pending after the call, but the
close call only closes the current figure: at a concrete code creating
two figures, the most recent figure is saved yet the first figure is
still pending after the call. -/
theorem C5_counterexample :
    (run_generated_code twoFigCode ctxDf st0).state.figs = [1]
    ∧ (run_generated_code twoFigCode ctxDf st0).state.files
        = [(plotPath, 2)] :=
  ⟨rfl, rfl⟩

/-- Claim C5 (amended): when the execution completes without raising with
a non-empty pending-figure registry and the save succeeds, the engine
saves the current (most recent) pending figure to the fixed plot path and
closes only that figure, so any earlier pending figures remain in the
registry. -/
theorem C5_theorem (code : Code) (ctx : Ctx) (st : EngineState)
    (cols : List String) (cur : Nat)
    (hdf : ctxLookup ctx "df" = some (Value.vDataFrame cols))
    (hok : (code [] ctx st.figs).exn = none)
    (hfig : ((code [] ctx st.figs).figs).getLast? = some cur)
    (hdir : st.dataDirExists = true) :
    (run_generated_code code ctx st).state.files
        = setFile st.files plotPath cur
    ∧ (run_generated_code code ctx st).state.figs
        = ((code [] ctx st.figs).figs).dropLast := by
  constructor
  · simp [run_generated_code, ctxHasKey, ctxGetD, columnsToList, hdf,
      hok, hfig, hdir]
  · simp [run_generated_code, ctxHasKey, ctxGetD, columnsToList, hdf,
      hok, hfig, hdir]

/-- Claim C5 witness at a concrete code creating two figures. -/
theorem C5_witness :
    ctxLookup ctxDf "df" = some (Value.vDataFrame ["a", "b"])
    ∧ (twoFigCode [] ctxDf st0.figs).exn = none
    ∧ ((twoFigCode [] ctxDf st0.figs).figs).getLast? = some 2
    ∧ st0.dataDirExists = true
    ∧ ((run_generated_code twoFigCode ctxDf st0).state.files
          = setFile st0.files plotPath 2
       ∧ (run_generated_code twoFigCode ctxDf st0).state.figs
          = ((twoFigCode [] ctxDf st0.figs).figs).dropLast) :=
  ⟨rfl, rfl, rfl, rfl,
    C5_theorem twoFigCode ctxDf st0 ["a", "b"] 2 rfl rfl rfl rfl⟩

/-- Claim C6: the code is executed with an empty global namespace and the
caller-supplied context as the local namespace, and on every exit path
past execution the context of the caller after the call is exactly the
local namespace the denotation produced, so every name the code defined
or mutated is present in that context. -/
theorem C6_theorem (code : Code) (ctx : Ctx) (st : EngineState)
    (cols : List String)
    (hdf : ctxLookup ctx "df" = some (Value.vDataFrame cols)) :
    (run_generated_code code ctx st).ctx = (code [] ctx st.figs).ctx
    ∧ ∀ (k : String) (v : Value),
        ctxLookup (code [] ctx st.figs).ctx k = some v →
        ctxLookup (run_generated_code code ctx st).ctx k = some v := by
  have hctx : (run_generated_code code ctx st).ctx
      = (code [] ctx st.figs).ctx := by
    cases hx : (code [] ctx st.figs).exn with
    | some e =>
        simp [run_generated_code, ctxHasKey, ctxGetD, columnsToList,
          hdf, hx]
    | none =>
        cases hl : ((code [] ctx st.figs).figs).getLast? with
        | none =>
            simp [run_generated_code, ctxHasKey, ctxGetD, columnsToList,
              hdf, hx, hl]
        | some cur =>
            cases hd : st.dataDirExists with
            | true =>
                simp [run_generated_code, ctxHasKey, ctxGetD,
                  columnsToList, hdf, hx, hl, hd]
            | false =>
                simp [run_generated_code, ctxHasKey, ctxGetD,
                  columnsToList, hdf, hx, hl, hd]
  exact ⟨hctx, fun k v hv => by rw [hctx]; exact hv⟩

/-- Claim C6 witness at a concrete code that assigns bindings before
raising, in a DataFrame context. -/
theorem C6_witness :
    ctxLookup ctxDf "df" = some (Value.vDataFrame ["a", "b"])
    ∧ ((run_generated_code assignThenRaiseCode ctxDf st0).ctx
          = (assignThenRaiseCode [] ctxDf st0.figs).ctx
       ∧ ∀ (k : String) (v : Value),
           ctxLookup (assignThenRaiseCode [] ctxDf st0.figs).ctx k = some v →
           ctxLookup (run_generated_code assignThenRaiseCode ctxDf st0).ctx k
             = some v) :=
  ⟨rfl, C6_theorem assignThenRaiseCode ctxDf st0 ["a", "b"] rfl⟩

/-- Claim C7: two calls with the same failing code on DataFrame contexts
both return the same fixed first element, and a later call made from the
post-state of the first captures in its buffer exactly the text its own
code printed, so output of an earlier call never appears in a later
result: the capture buffer is fresh per invocation. -/
theorem C7_theorem (code : Code) (c1 c2 : Ctx) (s1 s2 : EngineState)
    (cols1 cols2 : List String) (e1 e2 : String)
    (h1 : ctxLookup c1 "df" = some (Value.vDataFrame cols1))
    (h2 : ctxLookup c2 "df" = some (Value.vDataFrame cols2))
    (f1 : (code [] c1 s1.figs).exn = some e1)
    (f2 : (code [] c2 s2.figs).exn = some e2) :
    ((run_generated_code code c1 s1).ret
        = Except.ok (Value.vStr execErrorMsg, Value.vStr e1)
     ∧ (run_generated_code code c2 s2).ret
        = Except.ok (Value.vStr execErrorMsg, Value.vStr e2))
    ∧ ∀ code2 : Code,
        (run_generated_code code2 c2 (run_generated_code code c1 s1).state).buffer
          = (code2 [] c2 (run_generated_code code c1 s1).state.figs).printed := by
  refine ⟨⟨by simp [run_generated_code, ctxHasKey, ctxGetD, columnsToList,
      h1, f1],
    by simp [run_generated_code, ctxHasKey, ctxGetD, columnsToList,
      h2, f2]⟩, fun code2 => ?_⟩
  generalize (run_generated_code code c1 s1).state = s3
  cases hx : (code2 [] c2 s3.figs).exn with
  | some e =>
      simp [run_generated_code, ctxHasKey, ctxGetD, columnsToList, h2,
        hx, str_empty_append]
  | none =>
      cases hl : ((code2 [] c2 s3.figs).figs).getLast? with
      | none =>
          simp [run_generated_code, ctxHasKey, ctxGetD, columnsToList,
            h2, hx, hl, str_empty_append]
      | some cur =>
          cases hd : s3.dataDirExists with
          | true =>
              simp [run_generated_code, ctxHasKey, ctxGetD, columnsToList,
                h2, hx, hl, hd, str_empty_append]
          | false =>
              simp [run_generated_code, ctxHasKey, ctxGetD, columnsToList,
                h2, hx, hl, hd, str_empty_append]

/-- Claim C7 witness: the same raising code run twice on the same
DataFrame context and fresh state. -/
theorem C7_witness :
    ctxLookup ctxDf "df" = some (Value.vDataFrame ["a", "b"])
    ∧ (raiseCode [] ctxDf st0.figs).exn = some "bad"
    ∧ (((run_generated_code raiseCode ctxDf st0).ret
          = Except.ok (Value.vStr execErrorMsg, Value.vStr "bad")
       ∧ (run_generated_code raiseCode ctxDf st0).ret
          = Except.ok (Value.vStr execErrorMsg, Value.vStr "bad"))
       ∧ ∀ code2 : Code,
           (run_generated_code code2 ctxDf
              (run_generated_code raiseCode ctxDf st0).state).buffer
             = (code2 [] ctxDf
                 (run_generated_code raiseCode ctxDf st0).state.figs).printed) :=
  ⟨rfl, rfl,
    C7_theorem raiseCode ctxDf ctxDf st0 st0 ["a", "b"] ["a", "b"]
      "bad" "bad" rfl rfl rfl rfl⟩

/-- Claim C8: on every exit path the stdout capture scope is released
before the call returns, and consequently text written to standard output
after the call returns reaches the real terminal and is never diverted
into the buffer of the engine. -/
theorem C8_theorem (code : Code) (ctx : Ctx) (st : EngineState)
    (s : String) :
    (run_generated_code code ctx st).capturing = false
    ∧ (stdoutWrite (run_generated_code code ctx st) s).buffer
        = (run_generated_code code ctx st).buffer := by
  have hcap : (run_generated_code code ctx st).capturing = false := by
    cases hk : ctxHasKey ctx "df" with
    | false => simp [run_generated_code, hk]
    | true =>
        cases hc : columnsToList (ctxGetD ctx "df" Value.vNone) with
        | none => simp [run_generated_code, hk, hc]
        | some cols =>
            cases hx : (code [] ctx st.figs).exn with
            | some e => simp [run_generated_code, hk, hc, hx]
            | none =>
                cases hl : ((code [] ctx st.figs).figs).getLast? with
                | none => simp [run_generated_code, hk, hc, hx, hl]
                | some cur =>
                    cases hd : st.dataDirExists with
                    | true => simp [run_generated_code, hk, hc, hx, hl, hd]
                    | false => simp [run_generated_code, hk, hc, hx, hl, hd]
  exact ⟨hcap, by simp [stdoutWrite, hcap]⟩

/-- Claim C9: when the executed code raises after mutating the context,
the mutations remain visible in the context of the caller while the
returned pair is the fixed error pair, ignoring any result or summary
bindings the code made before raising. -/
theorem C9_theorem (code : Code) (ctx : Ctx) (st : EngineState)
    (cols : List String) (e : String)
    (hdf : ctxLookup ctx "df" = some (Value.vDataFrame cols))
    (hexn : (code [] ctx st.figs).exn = some e) :
    (run_generated_code code ctx st).ctx = (code [] ctx st.figs).ctx
    ∧ (run_generated_code code ctx st).ret
        = Except.ok (Value.vStr execErrorMsg, Value.vStr e) := by
  constructor
  · simp [run_generated_code, ctxHasKey, ctxGetD, columnsToList, hdf, hexn]
  · simp [run_generated_code, ctxHasKey, ctxGetD, columnsToList, hdf, hexn]

/-- Claim C9 witness: a code that assigns result and summary and then
raises; its mutations are retained and the error pair is returned. -/
theorem C9_witness :
    ctxLookup ctxDf "df" = some (Value.vDataFrame ["a", "b"])
    ∧ (assignThenRaiseCode [] ctxDf st0.figs).exn = some "boom"
    ∧ ((run_generated_code assignThenRaiseCode ctxDf st0).ctx
          = (assignThenRaiseCode [] ctxDf st0.figs).ctx
       ∧ (run_generated_code assignThenRaiseCode ctxDf st0).ret
          = Except.ok (Value.vStr execErrorMsg, Value.vStr "boom")) :=
  ⟨rfl, rfl, C9_theorem assignThenRaiseCode ctxDf st0 ["a", "b"] "boom"
    rfl rfl⟩

/-- Claim C10: the missing-df exit is fully side-effect free: the context
of the caller is unmodified, the whole process state (terminal text,
files, figure registry) is unchanged, and the fixed pair is returned. -/
theorem C10_theorem (code : Code) (ctx : Ctx) (st : EngineState)
    (h : ctxHasKey ctx "df" = false) :
    (run_generated_code code ctx st).ctx = ctx
    ∧ (run_generated_code code ctx st).state = st
    ∧ (run_generated_code code ctx st).ret
        = Except.ok (Value.vStr noDataFrameMsg, Value.vStr missingDfMsg) := by
  refine ⟨?_, ?_, ?_⟩ <;> simp [run_generated_code, h]

/-- Claim C10 witness at a concrete context without df. -/
theorem C10_witness :
    ctxHasKey ctxNoDf "df" = false
    ∧ ((run_generated_code printCode ctxNoDf st0).ctx = ctxNoDf
       ∧ (run_generated_code printCode ctxNoDf st0).state = st0
       ∧ (run_generated_code printCode ctxNoDf st0).ret
          = Except.ok (Value.vStr noDataFrameMsg, Value.vStr missingDfMsg)) :=
  ⟨rfl, C10_theorem printCode ctxNoDf st0 rfl⟩

end NexSight
